import Mathlib

/-!
Shallow embedding of `src/mod.ts` (Xernisfy/jsr.router): a minimal HTTP
router for `Deno.serve` built on URL patterns.  The file contains two
near-identical `Router` classes; we embed both.  The first (lines 65-174,
called `Router1` here) builds a fresh 404 response on every miss; the
second (lines 200-250, called `RouterV2` here) stores a singleton
`_defaultResponse` field and returns it on every miss.

Runtime capabilities used by the source (`URLPattern`, `decodeURIComponent`)
are not code of this repository; they are modelled as the spec describes
them: `URLPattern` as an abstract matcher whose `test` is satisfiability of
`exec`, and `decodeURIComponent` as standard ECMAScript percent-decoding
(percent escapes forming UTF-8 byte sequences, failure on malformed input).
-/

namespace JsrRouter

variable {Info : Type}

/-- The `Method` enum of `src/mod.ts` (lines 22-32): the five supported
HTTP methods; their string values are the enum member values. -/
inductive Method where
  | GET
  | POST
  | PUT
  | DELETE
  | PATCH
deriving DecidableEq

/-- The string value of a `Method` enum member. -/
def Method.toStr : Method → String
  | .GET => "GET"
  | .POST => "POST"
  | .PUT => "PUT"
  | .DELETE => "DELETE"
  | .PATCH => "PATCH"

/-- Which `Method` key (if any) a request's method string denotes.  This
models the own-key part of the lookup — a `Partial<Record<Method, _>>`
object literal can only ever have the five method strings as own keys —
and the `request.method as Method` cast of line 89.  It deliberately does
NOT by itself model the `in` test of line 87: JavaScript's `in` operator
also finds properties inherited from `Object.prototype` (`toString`,
`valueOf`, `__proto__`, ...); that full semantics is `jsInCheck` below,
and the dispatcher faithful to it is `JsRouter.handler`. -/
def parseMethod (s : String) : Option Method :=
  if s = "GET" then some Method.GET
  else if s = "POST" then some Method.POST
  else if s = "PUT" then some Method.PUT
  else if s = "DELETE" then some Method.DELETE
  else if s = "PATCH" then some Method.PATCH
  else none

/-- `URLPatternResult["pathname"]["groups"]`: a record from group name to
captured substring, `none` for a group present in the pattern but without a
captured value (`string | undefined`). -/
abbrev Groups := List (String × Option String)

/-- Modelled from the spec (§4.1): the runtime `URLPattern` capability,
reduced to its pathname component.  `exec` returns the captured pathname
groups when the URL matches, `none` otherwise; `test` succeeds exactly when
`exec` does. -/
structure URLPattern where
  exec : String → Option Groups

/-- `URLPattern.test`: true iff the URL matches, i.e. iff `exec` succeeds. -/
def URLPattern.test (p : URLPattern) (url : String) : Bool :=
  (p.exec url).isSome

/-- The parts of a `Request` the router reads or forwards: the method
string, the URL, and an opaque payload (headers/body/...) that the router
never inspects but hands to handlers. -/
structure Request where
  method : String
  url : String
  payload : Option String

/-- A `Response` value: body (`null` = `none`) and HTTP status. -/
structure Response where
  body : Option String
  status : Nat
deriving DecidableEq

/-- A JavaScript exception value: either the `URIError` thrown by
`decodeURIComponent` on malformed input, or an arbitrary application
error (coded by a natural number). -/
inductive JSError where
  | uriError
  | js : Nat → JSError
deriving DecidableEq

/-- A `Promise<Response>` modelled by its eventual settlement: resolved
with a response, or rejected with an error. -/
inductive PromiseResult where
  | resolved : Response → PromiseResult
  | rejected : JSError → PromiseResult
deriving DecidableEq

/-- The observable outcome of a call into the router or a handler:
a synchronous `Response`, a pending `Promise<Response>`, or a thrown
exception. -/
inductive HandlerOut where
  | response : Response → HandlerOut
  | pending : PromiseResult → HandlerOut
  | raise : JSError → HandlerOut
deriving DecidableEq

/-- The argument object `{ request, info, query }` passed to a handler
function (the `data` parameter of the handler type in `ResponseLike`). -/
structure HandlerArgs (Info : Type) where
  request : Request
  info : Info
  query : Groups

/-- The `ResponseLike` type of `src/mod.ts` (lines 35-42): a static
`Response`, a `Promise<Response>`, or a handler function from
`{ request, info, query }` to a response (whose call may also throw). -/
inductive ResponseLike (Info : Type) where
  | static : Response → ResponseLike Info
  | promise : PromiseResult → ResponseLike Info
  | handlerFn : (HandlerArgs Info → HandlerOut) → ResponseLike Info

/-- `MethodResponses = Partial<Record<Method, ResponseLike>>` (line 44). -/
abbrev MethodResponses (Info : Type) := Method → Option (ResponseLike Info)

/-- The object literal `{ METHOD: response }` used by the five convenience
registration methods: a mapping defined at exactly one method. -/
def singletonMethod (m : Method) (p : ResponseLike Info) : MethodResponses Info :=
  fun k => if k = m then some p else none

/-- The type of `this._routes` (line 67): the ordered route table of
(compiled pattern, method mapping) pairs. -/
abbrev RouteTable (Info : Type) := List (URLPattern × MethodResponses Info)

/-- Hexadecimal digit value of a character, `none` if not a hex digit. -/
def hexVal (c : Char) : Option Nat :=
  let n := c.toNat
  if 48 ≤ n ∧ n ≤ 57 then some (n - 48)
  else if 65 ≤ n ∧ n ≤ 70 then some (n - 55)
  else if 97 ≤ n ∧ n ≤ 102 then some (n - 87)
  else none

/-- Modelled from the spec (§6): the character-level decoding loop of
ECMAScript `decodeURIComponent`.  A `%` must begin a run of `%XX` escapes
spelling one valid UTF-8 sequence (no overlong forms, no surrogates, max
U+10FFFF); any other character passes through unchanged; malformed input
yields `none` (the runtime throws `URIError`). -/
def decodeChars : List Char → Option (List Char)
  | [] => some []
  | '%' :: h1 :: h2 :: rest =>
    match hexVal h1, hexVal h2 with
    | some a, some b =>
      let b0 := 16 * a + b
      if b0 < 0x80 then
        (Char.ofNat b0 :: ·) <$> decodeChars rest
      else if b0 < 0xC2 then none
      else if b0 < 0xE0 then
        match rest with
        | '%' :: h3 :: h4 :: rest2 =>
          match hexVal h3, hexVal h4 with
          | some a1, some b1 =>
            let c1 := 16 * a1 + b1
            if 0x80 ≤ c1 ∧ c1 < 0xC0 then
              (Char.ofNat ((b0 - 0xC0) * 0x40 + (c1 - 0x80)) :: ·) <$> decodeChars rest2
            else none
          | _, _ => none
        | _ => none
      else if b0 < 0xF0 then
        match rest with
        | '%' :: h3 :: h4 :: '%' :: h5 :: h6 :: rest2 =>
          match hexVal h3, hexVal h4, hexVal h5, hexVal h6 with
          | some a1, some b1, some a2, some b2 =>
            let c1 := 16 * a1 + b1
            let c2 := 16 * a2 + b2
            if 0x80 ≤ c1 ∧ c1 < 0xC0 ∧ 0x80 ≤ c2 ∧ c2 < 0xC0 then
              let cp := (b0 - 0xE0) * 0x1000 + (c1 - 0x80) * 0x40 + (c2 - 0x80)
              if 0x800 ≤ cp ∧ ¬(0xD800 ≤ cp ∧ cp < 0xE000) then
                (Char.ofNat cp :: ·) <$> decodeChars rest2
              else none
            else none
          | _, _, _, _ => none
        | _ => none
      else if b0 < 0xF5 then
        match rest with
        | '%' :: h3 :: h4 :: '%' :: h5 :: h6 :: '%' :: h7 :: h8 :: rest2 =>
          match hexVal h3, hexVal h4, hexVal h5, hexVal h6, hexVal h7, hexVal h8 with
          | some a1, some b1, some a2, some b2, some a3, some b3 =>
            let c1 := 16 * a1 + b1
            let c2 := 16 * a2 + b2
            let c3 := 16 * a3 + b3
            if 0x80 ≤ c1 ∧ c1 < 0xC0 ∧ 0x80 ≤ c2 ∧ c2 < 0xC0 ∧ 0x80 ≤ c3 ∧ c3 < 0xC0 then
              let cp := (b0 - 0xF0) * 0x40000 + (c1 - 0x80) * 0x1000 + (c2 - 0x80) * 0x40 + (c3 - 0x80)
              if 0x10000 ≤ cp ∧ cp ≤ 0x10FFFF then
                (Char.ofNat cp :: ·) <$> decodeChars rest2
              else none
            else none
          | _, _, _, _, _, _ => none
        | _ => none
      else none
    | _, _ => none
  | '%' :: _ => none
  | c :: rest => (c :: ·) <$> decodeChars rest

/-- Modelled from the spec (§6): `decodeURIComponent`, returning `none`
where the runtime primitive would throw `URIError`. -/
def decodeURIComponent (s : String) : Option String :=
  (decodeChars s.data).map String.mk

/-- One iteration of the decoding loop (lines 92-94): a truthy (non-empty,
defined) capture is replaced by its percent-decoding; an `undefined` or
empty-string capture is left untouched (`if (query[key])` is falsy). -/
def decodePair : String × Option String → Except JSError (String × Option String)
  | (k, none) => Except.ok (k, none)
  | (k, some v) =>
    if v = "" then Except.ok (k, some v)
    else
      match decodeURIComponent v with
      | some d => Except.ok (k, some d)
      | none => Except.error JSError.uriError

/-- The `for (const key in query)` decoding loop over all captured groups;
a decoding failure aborts the dispatch with the thrown `URIError`. -/
def decodeGroups : Groups → Except JSError Groups
  | [] => Except.ok []
  | kv :: rest =>
    match decodePair kv with
    | Except.error e => Except.error e
    | Except.ok kv2 =>
      match decodeGroups rest with
      | Except.error e => Except.error e
      | Except.ok rest2 => Except.ok (kv2 :: rest2)

/-- The body of the matched-entry branch (lines 89-97): a handler function
gets the decoded groups and its outcome is returned as-is; a static
response or stored promise is returned directly. -/
def produceResponse (res : ResponseLike Info) (groups : Groups) (req : Request)
    (info : Info) : HandlerOut :=
  match res with
  | ResponseLike.handlerFn f =>
    match decodeGroups groups with
    | Except.ok q => f { request := req, info := info, query := q }
    | Except.error e => HandlerOut.raise e
  | ResponseLike.static r => HandlerOut.response r
  | ResponseLike.promise pr => HandlerOut.pending pr

/-- `Router.handler` of the first class (lines 82-100): scan `_routes` in
order; skip entries whose mapping lacks the request's method (line 87) or
whose pattern fails to match the URL (line 88); produce from the first
entry passing both; on fall-through build `new Response(null, { status: 404 })`.
This renders line 87's `in` test as an own-key test, which is exact for
every request whose method string is not an `Object.prototype` property
name (theorem `jsHandler_eq_handler1` below relates it to the dispatcher
`JsRouter.handler` that models the full `in` semantics). -/
def Router1.handler (routes : RouteTable Info) (req : Request) (info : Info) :
    HandlerOut :=
  match routes with
  | [] => HandlerOut.response { body := none, status := 404 }
  | (pattern, methodResponses) :: rest =>
    match (parseMethod req.method).bind methodResponses with
    | none => Router1.handler rest req info
    | some response =>
      match pattern.exec req.url with
      | none => Router1.handler rest req info
      | some groups => produceResponse response groups req info

/-- `Router.route` (lines 116-118): compile the template and push one
(pattern, methods) entry. -/
def Router1.route (compile : String → URLPattern) (routes : RouteTable Info)
    (t : String) (methods : MethodResponses Info) : RouteTable Info :=
  routes ++ [(compile t, methods)]

/-- `Router.get` (lines 125-129): push one entry mapping only `GET`. -/
def Router1.get (compile : String → URLPattern) (routes : RouteTable Info)
    (t : String) (response : ResponseLike Info) : RouteTable Info :=
  routes ++ [(compile t, singletonMethod Method.GET response)]

/-- `Router.post` (lines 136-140): push one entry mapping only `POST`. -/
def Router1.post (compile : String → URLPattern) (routes : RouteTable Info)
    (t : String) (response : ResponseLike Info) : RouteTable Info :=
  routes ++ [(compile t, singletonMethod Method.POST response)]

/-- `Router.put` (lines 147-151): push one entry mapping only `PUT`. -/
def Router1.put (compile : String → URLPattern) (routes : RouteTable Info)
    (t : String) (response : ResponseLike Info) : RouteTable Info :=
  routes ++ [(compile t, singletonMethod Method.PUT response)]

/-- `Router.delete` (lines 158-162): push one entry mapping only `DELETE`. -/
def Router1.delete (compile : String → URLPattern) (routes : RouteTable Info)
    (t : String) (response : ResponseLike Info) : RouteTable Info :=
  routes ++ [(compile t, singletonMethod Method.DELETE response)]

/-- `Router.patch` (lines 169-173): push one entry mapping only `PATCH`. -/
def Router1.patch (compile : String → URLPattern) (routes : RouteTable Info)
    (t : String) (response : ResponseLike Info) : RouteTable Info :=
  routes ++ [(compile t, singletonMethod Method.PATCH response)]

/-- The state of the second `Router` class (lines 200-250): the route
table plus the `_defaultResponse` field. -/
structure RouterV2 (Info : Type) where
  routes : RouteTable Info
  defaultResponse : Response

/-- `new Router()` for the second class: empty table, and the field
initializer `_defaultResponse = new Response(null, { status: 404 })`
(line 202). -/
def RouterV2.new : RouterV2 Info :=
  { routes := [], defaultResponse := { body := none, status := 404 } }

/-- The scan loop of the second class's `handler` (lines 207-219), with
the fall-through value (line 220) passed explicitly. -/
def RouterV2.handlerAux (d : Response) :
    RouteTable Info → Request → Info → HandlerOut
  | [], _, _ => HandlerOut.response d
  | (pattern, methodResponses) :: rest, req, info =>
    match (parseMethod req.method).bind methodResponses with
    | none => RouterV2.handlerAux d rest req info
    | some response =>
      match pattern.exec req.url with
      | none => RouterV2.handlerAux d rest req info
      | some groups => produceResponse response groups req info

/-- `Router.handler` of the second class (lines 203-221): same scan, but
the fall-through returns `this._defaultResponse`. -/
def RouterV2.handler (st : RouterV2 Info) (req : Request) (info : Info) :
    HandlerOut :=
  RouterV2.handlerAux st.defaultResponse st.routes req info

/-- `route` of the second class (lines 222-224). -/
def RouterV2.route (compile : String → URLPattern) (st : RouterV2 Info)
    (t : String) (methods : MethodResponses Info) : RouterV2 Info :=
  { st with routes := st.routes ++ [(compile t, methods)] }

/-- `get` of the second class (lines 225-229). -/
def RouterV2.get (compile : String → URLPattern) (st : RouterV2 Info)
    (t : String) (response : ResponseLike Info) : RouterV2 Info :=
  { st with routes := st.routes ++ [(compile t, singletonMethod Method.GET response)] }

/-- `post` of the second class (lines 230-234). -/
def RouterV2.post (compile : String → URLPattern) (st : RouterV2 Info)
    (t : String) (response : ResponseLike Info) : RouterV2 Info :=
  { st with routes := st.routes ++ [(compile t, singletonMethod Method.POST response)] }

/-- `put` of the second class (lines 235-239). -/
def RouterV2.put (compile : String → URLPattern) (st : RouterV2 Info)
    (t : String) (response : ResponseLike Info) : RouterV2 Info :=
  { st with routes := st.routes ++ [(compile t, singletonMethod Method.PUT response)] }

/-- `delete` of the second class (lines 240-244). -/
def RouterV2.delete (compile : String → URLPattern) (st : RouterV2 Info)
    (t : String) (response : ResponseLike Info) : RouterV2 Info :=
  { st with routes := st.routes ++ [(compile t, singletonMethod Method.DELETE response)] }

/-- `patch` of the second class (lines 245-249). -/
def RouterV2.patch (compile : String → URLPattern) (st : RouterV2 Info)
    (t : String) (response : ResponseLike Info) : RouterV2 Info :=
  { st with routes := st.routes ++ [(compile t, singletonMethod Method.PATCH response)] }

/-- One call to the registration API (either class has the same six
methods with the same bodies). -/
inductive RegOp (Info : Type) where
  | route : String → MethodResponses Info → RegOp Info
  | get : String → ResponseLike Info → RegOp Info
  | post : String → ResponseLike Info → RegOp Info
  | put : String → ResponseLike Info → RegOp Info
  | delete : String → ResponseLike Info → RegOp Info
  | patch : String → ResponseLike Info → RegOp Info

/-- The single table entry a registration call pushes. -/
def opEntry (compile : String → URLPattern) :
    RegOp Info → URLPattern × MethodResponses Info
  | RegOp.route t m => (compile t, m)
  | RegOp.get t p => (compile t, singletonMethod Method.GET p)
  | RegOp.post t p => (compile t, singletonMethod Method.POST p)
  | RegOp.put t p => (compile t, singletonMethod Method.PUT p)
  | RegOp.delete t p => (compile t, singletonMethod Method.DELETE p)
  | RegOp.patch t p => (compile t, singletonMethod Method.PATCH p)

/-- Apply one registration call to the first class's state. -/
def applyOp1 (compile : String → URLPattern) (routes : RouteTable Info) :
    RegOp Info → RouteTable Info
  | RegOp.route t m => Router1.route compile routes t m
  | RegOp.get t p => Router1.get compile routes t p
  | RegOp.post t p => Router1.post compile routes t p
  | RegOp.put t p => Router1.put compile routes t p
  | RegOp.delete t p => Router1.delete compile routes t p
  | RegOp.patch t p => Router1.patch compile routes t p

/-- Apply a sequence of registration calls to the first class's state. -/
def applyOps1 (compile : String → URLPattern) (routes : RouteTable Info)
    (ops : List (RegOp Info)) : RouteTable Info :=
  ops.foldl (applyOp1 compile) routes

/-- Apply one registration call to the second class's state. -/
def applyOp2 (compile : String → URLPattern) (st : RouterV2 Info) :
    RegOp Info → RouterV2 Info
  | RegOp.route t m => RouterV2.route compile st t m
  | RegOp.get t p => RouterV2.get compile st t p
  | RegOp.post t p => RouterV2.post compile st t p
  | RegOp.put t p => RouterV2.put compile st t p
  | RegOp.delete t p => RouterV2.delete compile st t p
  | RegOp.patch t p => RouterV2.patch compile st t p

/-- Apply a sequence of registration calls to the second class's state. -/
def applyOps2 (compile : String → URLPattern) (st : RouterV2 Info)
    (ops : List (RegOp Info)) : RouterV2 Info :=
  ops.foldl (applyOp2 compile) st

/-- Whether an entry passes both dispatch checks for a request: its
mapping has a producer at the request's method and its pattern matches
the request's URL (lines 87-88). -/
def entryMatchesB (e : URLPattern × MethodResponses Info) (req : Request) : Bool :=
  ((parseMethod req.method).bind e.2).isSome && (e.1.exec req.url).isSome

/-- The first table entry passing both dispatch checks, if any. -/
def firstMatch : RouteTable Info → Request → Option (URLPattern × MethodResponses Info)
  | [], _ => none
  | e :: rest, req =>
    if entryMatchesB e req then some e else firstMatch rest req

/-- The index of the first table entry passing both dispatch checks. -/
def matchedIndex : RouteTable Info → Request → Option Nat
  | [], _ => none
  | e :: rest, req =>
    if entryMatchesB e req then some 0
    else (matchedIndex rest req).map (· + 1)

/-- No entry of the table passes both dispatch checks for the request. -/
def noEntryMatches (routes : RouteTable Info) (req : Request) : Bool :=
  routes.all (fun e => !(entryMatchesB e req))

/-- The dispatch outcome contributed by a single matching entry. -/
def produceEntry (p : URLPattern) (m : MethodResponses Info) (req : Request)
    (info : Info) : HandlerOut :=
  match (parseMethod req.method).bind m, p.exec req.url with
  | some response, some groups => produceResponse response groups req info
  | _, _ => HandlerOut.response { body := none, status := 404 }

/-- How a raw captured group relates to what the handler receives: same
name; an absent capture stays absent; an empty capture stays empty and
undecoded; a non-empty capture arrives as its percent-decoding. -/
def decRel (a b : String × Option String) : Prop :=
  a.1 = b.1 ∧
  (a.2 = none → b.2 = none) ∧
  (a.2 = some "" → b.2 = some "") ∧
  ∀ v, a.2 = some v → v ≠ "" → decodeURIComponent v = b.2

/-- A literal-URL pattern compiler used for concrete evaluation: the
pattern matches exactly its own template string and captures nothing. -/
def compileW : String → URLPattern :=
  fun t => ⟨fun url => if url = t then some [] else none⟩

/-- A concrete pattern matching one fixed URL with no captures. -/
def patX : URLPattern :=
  ⟨fun url => if url = "https://example.com/x" then some [] else none⟩

/-- A concrete pattern matching one fixed URL with an `id` capture that
contains a percent escape. -/
def patId : URLPattern :=
  ⟨fun url =>
    if url = "https://example.com/user/a%20b" then some [("id", some "a%20b")]
    else none⟩

/-- A concrete 200 response with body "A". -/
def respA : Response := { body := some "A", status := 200 }

/-- A concrete 200 response with body "B". -/
def respB : Response := { body := some "B", status := 200 }

/-- A concrete GET request for the URL `patX` matches. -/
def reqGetX : Request :=
  { method := "GET", url := "https://example.com/x", payload := none }

/-- The same request line as `reqGetX` but with a different payload. -/
def reqGetX2 : Request :=
  { method := "GET", url := "https://example.com/x", payload := some "p" }

/-- A request whose method is outside the five supported methods. -/
def reqOptionsX : Request :=
  { method := "OPTIONS", url := "https://example.com/x", payload := none }

/-- A concrete GET request for the URL `patId` matches. -/
def reqUser : Request :=
  { method := "GET", url := "https://example.com/user/a%20b", payload := none }

/-- A table with two entries that both match `reqGetX` (overlap). -/
def routesW1 : RouteTable Unit :=
  [(patX, singletonMethod Method.GET (ResponseLike.static respA)),
   (patX, singletonMethod Method.GET (ResponseLike.static respB))]

/-- A table whose only entry matches the path of `reqGetX` but is
registered for POST only. -/
def routesW2 : RouteTable Unit :=
  [(patX, singletonMethod Method.POST (ResponseLike.static respA))]

/-- A handler echoing the first captured group value as the body. -/
def echoHandler : HandlerArgs Unit → HandlerOut :=
  fun a =>
    HandlerOut.response { body := a.query.head?.bind (fun kv => kv.2), status := 200 }

/-- A table registering `echoHandler` for GET on `patId`. -/
def routesW3 : RouteTable Unit :=
  [(patId, singletonMethod Method.GET (ResponseLike.handlerFn echoHandler))]

/-- A handler that always throws the application error `js 7`. -/
def failingHandler : HandlerArgs Unit → HandlerOut :=
  fun _ => HandlerOut.raise (JSError.js 7)

/-- A table registering `failingHandler` for GET on `patX`. -/
def routesW9 : RouteTable Unit :=
  [(patX, singletonMethod Method.GET (ResponseLike.handlerFn failingHandler))]

/-- A concrete registration sequence: one GET route on the literal
template "/x". -/
def opsW : List (RegOp Unit) :=
  [RegOp.get "/x" (ResponseLike.static respA)]

/-- A concrete GET request matching the literal template "/x". -/
def reqSlashX : Request := { method := "GET", url := "/x", payload := none }

/-- Modelled from ECMAScript: the property names every object literal
inherits from `Object.prototype` whose values are functions (so line 90's
`typeof response === "function"` is true and line 95 calls them). -/
def objectProtoFnKeys : List String :=
  ["constructor", "hasOwnProperty", "isPrototypeOf", "propertyIsEnumerable",
   "toLocaleString", "toString", "valueOf",
   "__defineGetter__", "__defineSetter__", "__lookupGetter__", "__lookupSetter__"]

/-- Modelled from ECMAScript: the inherited `Object.prototype` property
names whose values are not functions (the `__proto__` accessor yields the
`Object.prototype` object itself), so line 97 returns them directly. -/
def objectProtoObjKeys : List String := ["__proto__"]

/-- Modelled from ECMAScript: all property names an object literal
inherits from `Object.prototype`, i.e. the strings for which `s in obj`
is true even though `obj` has no own key `s`. -/
def objectProtoKeys : List String := objectProtoFnKeys ++ objectProtoObjKeys

/-- The full semantics of line 87's `request.method in methodResponses`:
true when the literal has the method as an own key (one of the five
`Method` strings, mapped), or when the string is a property name
inherited from `Object.prototype` via the prototype chain. -/
def jsInCheck (m : MethodResponses Info) (s : String) : Bool :=
  ((parseMethod s).bind m).isSome || objectProtoKeys.contains s

/-- The observable outcome of the dispatcher under full JavaScript
semantics: a normal outcome (a registered producer's result or the 404
fall-through), or — when the `in` check was satisfied only through the
prototype chain — the result of calling the inherited function property
of the given name with the decoded groups (for `toString` this is the
string `"[object Undefined]"`, not a `Response`), or the inherited
non-function property value returned as-is (the `__proto__` object, not
a `Response`). -/
inductive JsOut where
  | normal : HandlerOut → JsOut
  | protoFnResult : String → Groups → JsOut
  | protoObject : String → JsOut
deriving DecidableEq

/-- The dispatcher of lines 82-100 with line 87's `in` test modelled
faithfully (prototype chain included).  When the check passes through an
own key the body behaves as `Router1.handler`; when it passes only
through an inherited `Object.prototype` property, line 89 fetches that
inherited value: a function is called after the decode loop (line 95)
and its result returned, a non-function value is returned directly
(line 97).  Neither is the 404 response. -/
def JsRouter.handler (routes : RouteTable Info) (req : Request) (info : Info) :
    JsOut :=
  match routes with
  | [] => JsOut.normal (HandlerOut.response { body := none, status := 404 })
  | (pattern, methodResponses) :: rest =>
    if jsInCheck methodResponses req.method then
      match pattern.exec req.url with
      | none => JsRouter.handler rest req info
      | some groups =>
        match (parseMethod req.method).bind methodResponses with
        | some response => JsOut.normal (produceResponse response groups req info)
        | none =>
          if objectProtoFnKeys.contains req.method then
            match decodeGroups groups with
            | Except.ok q => JsOut.protoFnResult req.method q
            | Except.error e => JsOut.normal (HandlerOut.raise e)
          else JsOut.protoObject req.method
    else JsRouter.handler rest req info

/-- A request whose method string is the inherited property name
`"toString"` — a legal HTTP method token a client can send — aimed at
the URL `patX` matches. -/
def reqToString : Request :=
  { method := "toString", url := "https://example.com/x", payload := none }

theorem handler1_eq_firstMatch (routes : RouteTable Info) (req : Request) (info : Info) :
    Router1.handler routes req info =
      match firstMatch routes req with
      | none => HandlerOut.response { body := none, status := 404 }
      | some (p, m) => produceEntry p m req info := by
  induction routes with
  | nil => rfl
  | cons e rest ih =>
    obtain ⟨p, m⟩ := e
    cases hb : (parseMethod req.method).bind m with
    | none =>
      have hE : entryMatchesB (p, m) req = false := by
        simp [entryMatchesB, hb]
      simp [Router1.handler, firstMatch, hE, hb, ih]
    | some response =>
      cases he : p.exec req.url with
      | none =>
        have hE : entryMatchesB (p, m) req = false := by
          simp [entryMatchesB, hb, he]
        simp [Router1.handler, firstMatch, hE, hb, he, ih]
      | some groups =>
        have hE : entryMatchesB (p, m) req = true := by
          simp [entryMatchesB, hb, he]
        simp [Router1.handler, firstMatch, hE, hb, he, produceEntry]

theorem handlerAux2_eq_firstMatch (d : Response) (routes : RouteTable Info)
    (req : Request) (info : Info) :
    RouterV2.handlerAux d routes req info =
      match firstMatch routes req with
      | none => HandlerOut.response d
      | some (p, m) => produceEntry p m req info := by
  induction routes with
  | nil => rfl
  | cons e rest ih =>
    obtain ⟨p, m⟩ := e
    cases hb : (parseMethod req.method).bind m with
    | none =>
      have hE : entryMatchesB (p, m) req = false := by
        simp [entryMatchesB, hb]
      simp [RouterV2.handlerAux, firstMatch, hE, hb, ih]
    | some response =>
      cases he : p.exec req.url with
      | none =>
        have hE : entryMatchesB (p, m) req = false := by
          simp [entryMatchesB, hb, he]
        simp [RouterV2.handlerAux, firstMatch, hE, hb, he, ih]
      | some groups =>
        have hE : entryMatchesB (p, m) req = true := by
          simp [entryMatchesB, hb, he]
        simp [RouterV2.handlerAux, firstMatch, hE, hb, he, produceEntry]

theorem matchedIndex_le (req : Request) :
    ∀ (routes : RouteTable Info) (i : Nat) (ei : URLPattern × MethodResponses Info),
      routes[i]? = some ei → entryMatchesB ei req = true →
      ∃ k, k ≤ i ∧ matchedIndex routes req = some k := by
  intro routes
  induction routes with
  | nil => intro i ei h; simp at h
  | cons e rest ih =>
    intro i ei h hm
    cases hE : entryMatchesB e req with
    | true => exact ⟨0, Nat.zero_le i, by simp [matchedIndex, hE]⟩
    | false =>
      cases i with
      | zero =>
        simp at h
        rw [h] at hE
        rw [hE] at hm
        cases hm
      | succ n =>
        have h2 : rest[n]? = some ei := by simpa using h
        obtain ⟨k, hk, hmi⟩ := ih n ei h2 hm
        exact ⟨k + 1, Nat.succ_le_succ hk, by simp [matchedIndex, hE, hmi]⟩

theorem matchedIndex_spec (req : Request) :
    ∀ (routes : RouteTable Info) (k : Nat), matchedIndex routes req = some k →
      ∃ ek, routes[k]? = some ek ∧ entryMatchesB ek req = true ∧
        firstMatch routes req = some ek := by
  intro routes
  induction routes with
  | nil => intro k h; simp [matchedIndex] at h
  | cons e rest ih =>
    intro k h
    cases hE : entryMatchesB e req with
    | true =>
      rw [matchedIndex, hE] at h
      simp at h
      subst h
      exact ⟨e, by simp, hE, by simp [firstMatch, hE]⟩
    | false =>
      rw [matchedIndex, hE] at h
      simp at h
      obtain ⟨k2, hk2, hkk⟩ := h
      obtain ⟨ek, h1, h2, h3⟩ := ih k2 hk2
      subst hkk
      exact ⟨ek, by simpa using h1, h2, by simp [firstMatch, hE, h3]⟩

theorem decodePair_rel (a b : String × Option String)
    (h : decodePair a = Except.ok b) : decRel a b := by
  obtain ⟨k, v⟩ := a
  cases v with
  | none =>
    simp [decodePair] at h
    subst h
    exact ⟨rfl, fun _ => rfl, by simp, by simp⟩
  | some s =>
    by_cases hs : s = ""
    · subst hs
      simp [decodePair] at h
      subst h
      exact ⟨rfl, by simp, by simp, by simp⟩
    · rw [decodePair] at h
      simp [hs] at h
      cases hd : decodeURIComponent s with
      | none => rw [hd] at h; cases h
      | some d =>
        rw [hd] at h
        simp at h
        subst h
        refine ⟨rfl, by simp, by simp [hs], ?_⟩
        intro v2 hv2 _
        simp at hv2
        subst hv2
        simpa using hd

theorem decodeGroups_forall2 :
    ∀ (g q : Groups), decodeGroups g = Except.ok q → List.Forall₂ decRel g q := by
  intro g
  induction g with
  | nil =>
    intro q h
    simp [decodeGroups] at h
    subst h
    exact List.Forall₂.nil
  | cons kv rest ih =>
    intro q h
    rw [decodeGroups] at h
    cases hp : decodePair kv with
    | error e => rw [hp] at h; cases h
    | ok kv2 =>
      rw [hp] at h
      cases hr : decodeGroups rest with
      | error e => rw [hr] at h; cases h
      | ok rest2 =>
        rw [hr] at h
        simp at h
        subst h
        exact List.Forall₂.cons (decodePair_rel kv kv2 hp) (ih rest2 hr)

theorem handler1_handlerFn (routes : RouteTable Info) (req : Request) (info : Info)
    (p : URLPattern) (m : MethodResponses Info) (f : HandlerArgs Info → HandlerOut)
    (g q : Groups)
    (hfm : firstMatch routes req = some (p, m))
    (hres : (parseMethod req.method).bind m = some (ResponseLike.handlerFn f))
    (hexec : p.exec req.url = some g)
    (hdec : decodeGroups g = Except.ok q) :
    Router1.handler routes req info = f { request := req, info := info, query := q } := by
  rw [handler1_eq_firstMatch, hfm]
  simp [produceEntry, hres, hexec, produceResponse, hdec]

theorem firstMatch_eq_none (routes : RouteTable Info) (req : Request)
    (h : noEntryMatches routes req = true) : firstMatch routes req = none := by
  induction routes with
  | nil => rfl
  | cons e rest ih =>
    simp [noEntryMatches, List.all_cons] at h
    obtain ⟨h1, h2⟩ := h
    have h2b : noEntryMatches rest req = true := by
      simp [noEntryMatches, List.all_eq_true]
      intro x hx
      exact h2 x hx
    simp [firstMatch, h1, ih h2b]

theorem jsHandler_eq_handler1 (req : Request)
    (h : objectProtoKeys.contains req.method = false) :
    ∀ (routes : RouteTable Info) (info : Info),
      JsRouter.handler routes req info = JsOut.normal (Router1.handler routes req info) := by
  intro routes
  induction routes with
  | nil => intro info; rfl
  | cons e rest ih =>
    intro info
    obtain ⟨p, m⟩ := e
    have hin : jsInCheck m req.method = ((parseMethod req.method).bind m).isSome := by
      rw [jsInCheck, h, Bool.or_false]
    cases hb : (parseMethod req.method).bind m with
    | none =>
      have hF : jsInCheck m req.method = false := by simp [hin, hb]
      simp [JsRouter.handler, hF, Router1.handler, hb, ih]
    | some response =>
      have hT : jsInCheck m req.method = true := by simp [hin, hb]
      cases he : p.exec req.url with
      | none => simp [JsRouter.handler, hT, he, Router1.handler, hb, ih]
      | some groups => simp [JsRouter.handler, hT, he, hb, Router1.handler]

theorem entryMatchesB_congr (e : URLPattern × MethodResponses Info)
    (req1 req2 : Request) (hm : req1.method = req2.method)
    (hu : req1.url = req2.url) :
    entryMatchesB e req1 = entryMatchesB e req2 := by
  rw [entryMatchesB, entryMatchesB, hm, hu]

theorem applyOp1_eq_append (compile : String → URLPattern)
    (routes : RouteTable Info) (op : RegOp Info) :
    applyOp1 compile routes op = routes ++ [opEntry compile op] := by
  cases op <;> rfl

theorem applyOps1_eq_append (compile : String → URLPattern) :
    ∀ (ops : List (RegOp Info)) (routes : RouteTable Info),
      applyOps1 compile routes ops = routes ++ ops.map (opEntry compile) := by
  intro ops
  induction ops with
  | nil => intro routes; simp [applyOps1]
  | cons op rest ih =>
    intro routes
    have h1 : applyOps1 compile routes (op :: rest) =
        applyOps1 compile (applyOp1 compile routes op) rest := rfl
    rw [h1, ih, applyOp1_eq_append]
    simp

theorem applyOp2_routes (compile : String → URLPattern) (st : RouterV2 Info)
    (op : RegOp Info) :
    (applyOp2 compile st op).routes = applyOp1 compile st.routes op := by
  cases op <;> rfl

theorem applyOp2_defaultResponse (compile : String → URLPattern)
    (st : RouterV2 Info) (op : RegOp Info) :
    (applyOp2 compile st op).defaultResponse = st.defaultResponse := by
  cases op <;> rfl

theorem applyOps2_routes (compile : String → URLPattern) :
    ∀ (ops : List (RegOp Info)) (st : RouterV2 Info),
      (applyOps2 compile st ops).routes = applyOps1 compile st.routes ops := by
  intro ops
  induction ops with
  | nil => intro st; rfl
  | cons op rest ih =>
    intro st
    have h1 : applyOps2 compile st (op :: rest) =
        applyOps2 compile (applyOp2 compile st op) rest := rfl
    have h2 : applyOps1 compile st.routes (op :: rest) =
        applyOps1 compile (applyOp1 compile st.routes op) rest := rfl
    rw [h1, h2, ih, applyOp2_routes]

theorem applyOps2_defaultResponse (compile : String → URLPattern) :
    ∀ (ops : List (RegOp Info)) (st : RouterV2 Info),
      (applyOps2 compile st ops).defaultResponse = st.defaultResponse := by
  intro ops
  induction ops with
  | nil => intro st; rfl
  | cons op rest ih =>
    intro st
    have h1 : applyOps2 compile st (op :: rest) =
        applyOps2 compile (applyOp2 compile st op) rest := rfl
    rw [h1, ih, applyOp2_defaultResponse]

/-- C1. First-match-wins dispatch: for every route table and request, if
the entries at positions `i < j` both have a pattern matching the
request's URL and a mapping containing the request's method, then the
dispatcher's scan settles on some entry at position `k ≤ i < j` — never
the later entry — and the dispatch outcome is produced from that entry. -/
theorem first_match_wins (routes : RouteTable Info) (req : Request) (info : Info)
    (i j : Nat) (ei ej : URLPattern × MethodResponses Info) (hij : i < j)
    (hi : routes[i]? = some ei) (hj : routes[j]? = some ej)
    (hmi : entryMatchesB ei req = true) (hmj : entryMatchesB ej req = true) :
    ∃ k ek, k ≤ i ∧ k < j ∧ matchedIndex routes req = some k ∧
      routes[k]? = some ek ∧ entryMatchesB ek req = true ∧
      Router1.handler routes req info = produceEntry ek.1 ek.2 req info := by
  obtain ⟨k, hk, hmidx⟩ := matchedIndex_le req routes i ei hi hmi
  obtain ⟨ek, hg, hme, hfm⟩ := matchedIndex_spec req routes k hmidx
  refine ⟨k, ek, hk, lt_of_le_of_lt hk hij, hmidx, hg, hme, ?_⟩
  rw [handler1_eq_firstMatch, hfm]

theorem first_match_wins_witness :
    ∃ k ek, k ≤ 0 ∧ k < 1 ∧ matchedIndex routesW1 reqGetX = some k ∧
      routesW1[k]? = some ek ∧ entryMatchesB ek reqGetX = true ∧
      Router1.handler routesW1 reqGetX () = produceEntry ek.1 ek.2 reqGetX () :=
  first_match_wins routesW1 reqGetX () 0 1
    (patX, singletonMethod Method.GET (ResponseLike.static respA))
    (patX, singletonMethod Method.GET (ResponseLike.static respB))
    (by decide) rfl rfl (by decide) (by decide)

/-- C2, code-bug exhibit: the request with method `"toString"` and a URL
matched by the single entry's pattern satisfies the claim's no-match
hypothesis — the entry's method-mapping (key space: the five enum
methods) does not contain `"toString"` — yet the dispatcher, with
line 87's `in` modelled faithfully, does not skip the entry and does not
return the 404 empty-body response: the check is satisfied by the
inherited `Object.prototype.toString`, which line 89 fetches and line 95
calls, returning that call's result. -/
theorem no_match_inherited_dispatch :
    noEntryMatches routesW2 reqToString = true ∧
    JsRouter.handler routesW2 reqToString () = JsOut.protoFnResult "toString" [] ∧
    JsRouter.handler routesW2 reqToString () ≠
      JsOut.normal (HandlerOut.response { body := none, status := 404 }) :=
  ⟨by decide, rfl, by decide⟩

/-- C3. Percent-decoding of captured parameters: when the first matching
entry's producer is a handler function and all captures decode, the
dispatcher calls the handler with the decoded groups `q`; pointwise, the
group names are preserved, absent captures stay absent, empty-string
captures are passed through undecoded, and every non-empty capture is
replaced by its standard percent-decoding — with `"a%20b"` decoding to
`"a b"` and `"a%2Fb"` to `"a/b"`. -/
theorem params_percent_decoded (routes : RouteTable Info) (req : Request)
    (info : Info) (p : URLPattern) (m : MethodResponses Info)
    (f : HandlerArgs Info → HandlerOut) (g q : Groups)
    (hfm : firstMatch routes req = some (p, m))
    (hres : (parseMethod req.method).bind m = some (ResponseLike.handlerFn f))
    (hexec : p.exec req.url = some g)
    (hdec : decodeGroups g = Except.ok q) :
    Router1.handler routes req info = f { request := req, info := info, query := q } ∧
    List.Forall₂ decRel g q ∧
    decodeURIComponent "a%20b" = some "a b" ∧
    decodeURIComponent "a%2Fb" = some "a/b" :=
  ⟨handler1_handlerFn routes req info p m f g q hfm hres hexec hdec,
   decodeGroups_forall2 g q hdec, by decide, by decide⟩

theorem params_percent_decoded_witness :
    Router1.handler routesW3 reqUser () =
      echoHandler { request := reqUser, info := (), query := [("id", some "a b")] } ∧
    List.Forall₂ decRel [("id", some "a%20b")] [("id", some "a b")] ∧
    decodeURIComponent "a%20b" = some "a b" ∧
    decodeURIComponent "a%2Fb" = some "a/b" :=
  params_percent_decoded routesW3 reqUser () patId
    (singletonMethod Method.GET (ResponseLike.handlerFn echoHandler))
    echoHandler [("id", some "a%20b")] [("id", some "a b")] rfl rfl rfl rfl

/-- C4. Singleton default response: for every registration sequence
applied to a fresh second-variant router, the stored `_defaultResponse`
is still the 404-with-null-body value built at construction, and every
dispatch that falls through to no-match returns exactly that stored
value — so any two no-match dispatches return the same response value,
not a per-call construction. -/
theorem default_response_singleton (compile : String → URLPattern)
    (ops : List (RegOp Info)) (req1 req2 : Request) (info1 info2 : Info)
    (h1 : noEntryMatches (applyOps2 compile RouterV2.new ops).routes req1 = true)
    (h2 : noEntryMatches (applyOps2 compile RouterV2.new ops).routes req2 = true) :
    (applyOps2 compile RouterV2.new ops).defaultResponse =
      { body := none, status := 404 } ∧
    RouterV2.handler (applyOps2 compile RouterV2.new ops) req1 info1 =
      HandlerOut.response (applyOps2 compile RouterV2.new ops).defaultResponse ∧
    RouterV2.handler (applyOps2 compile RouterV2.new ops) req2 info2 =
      RouterV2.handler (applyOps2 compile RouterV2.new ops) req1 info1 := by
  refine ⟨applyOps2_defaultResponse compile ops RouterV2.new, ?_, ?_⟩
  · rw [RouterV2.handler, handlerAux2_eq_firstMatch,
      firstMatch_eq_none _ req1 h1]
  · simp only [RouterV2.handler]
    rw [handlerAux2_eq_firstMatch, handlerAux2_eq_firstMatch,
      firstMatch_eq_none _ req1 h1, firstMatch_eq_none _ req2 h2]

theorem default_response_singleton_witness :
    (applyOps2 compileW RouterV2.new opsW).defaultResponse =
      { body := none, status := 404 } ∧
    RouterV2.handler (applyOps2 compileW RouterV2.new opsW) reqGetX () =
      HandlerOut.response (applyOps2 compileW RouterV2.new opsW).defaultResponse ∧
    RouterV2.handler (applyOps2 compileW RouterV2.new opsW) reqOptionsX () =
      RouterV2.handler (applyOps2 compileW RouterV2.new opsW) reqGetX () :=
  default_response_singleton compileW opsW reqGetX reqOptionsX () ()
    (by decide) (by decide)

/-- C5. Convenience registration is sugar for `route`: `get t p` leaves
the table exactly as `route t { GET: p }` would, and likewise for
`post`/`put`/`delete`/`patch` with their methods, so dispatch behaves
identically on routers built either way. -/
theorem convenience_sugar (compile : String → URLPattern)
    (routes : RouteTable Info) (t : String) (p : ResponseLike Info)
    (req : Request) (info : Info) :
    Router1.get compile routes t p =
      Router1.route compile routes t (singletonMethod Method.GET p) ∧
    Router1.post compile routes t p =
      Router1.route compile routes t (singletonMethod Method.POST p) ∧
    Router1.put compile routes t p =
      Router1.route compile routes t (singletonMethod Method.PUT p) ∧
    Router1.delete compile routes t p =
      Router1.route compile routes t (singletonMethod Method.DELETE p) ∧
    Router1.patch compile routes t p =
      Router1.route compile routes t (singletonMethod Method.PATCH p) ∧
    Router1.handler (Router1.get compile routes t p) req info =
      Router1.handler
        (Router1.route compile routes t (singletonMethod Method.GET p)) req info :=
  ⟨rfl, rfl, rfl, rfl, rfl, rfl⟩

/-- C6. Append-only, order-preserving registration: each of the six
registration operations is a total function returning the old table with
exactly one entry appended at the end (so existing entries, and their
order, are untouched), and a whole sequence of registrations yields the
old table followed by one entry per call, in call order. -/
theorem registration_appends (compile : String → URLPattern)
    (routes : RouteTable Info) (t : String) (m : MethodResponses Info)
    (p : ResponseLike Info) (ops : List (RegOp Info)) :
    Router1.route compile routes t m = routes ++ [(compile t, m)] ∧
    Router1.get compile routes t p =
      routes ++ [(compile t, singletonMethod Method.GET p)] ∧
    Router1.post compile routes t p =
      routes ++ [(compile t, singletonMethod Method.POST p)] ∧
    Router1.put compile routes t p =
      routes ++ [(compile t, singletonMethod Method.PUT p)] ∧
    Router1.delete compile routes t p =
      routes ++ [(compile t, singletonMethod Method.DELETE p)] ∧
    Router1.patch compile routes t p =
      routes ++ [(compile t, singletonMethod Method.PATCH p)] ∧
    applyOps1 compile routes ops = routes ++ ops.map (opEntry compile) :=
  ⟨rfl, rfl, rfl, rfl, rfl, rfl, applyOps1_eq_append compile ops routes⟩

/-- C7, code-bug exhibit: `"toString"` is none of the five enumerated
methods, so per the claim (and the spec's key-space argument) dispatch
should fall through to the 404 — but with line 87's `in` modelled
faithfully the inherited `Object.prototype.toString` satisfies the check
on an entry whose pattern matches, and the dispatcher calls that
inherited function and returns its result instead of the 404 response. -/
theorem unsupported_method_inherited_dispatch :
    reqToString.method ≠ "GET" ∧ reqToString.method ≠ "POST" ∧
    reqToString.method ≠ "PUT" ∧ reqToString.method ≠ "DELETE" ∧
    reqToString.method ≠ "PATCH" ∧
    JsRouter.handler routesW1 reqToString () = JsOut.protoFnResult "toString" [] ∧
    JsRouter.handler routesW1 reqToString () ≠
      JsOut.normal (HandlerOut.response { body := none, status := 404 }) :=
  ⟨by decide, by decide, by decide, by decide, by decide, rfl, by decide⟩

/-- C8. Dispatch is deterministic: two requests with the same method and
URL select the same first matching entry and the same matched index, and
dispatch of one and the same input twice yields one and the same result —
the handler is a pure function of the table and the request, with no
per-request mutable state. -/
theorem dispatch_deterministic (routes : RouteTable Info)
    (req1 req2 : Request) (info : Info) (hm : req1.method = req2.method)
    (hu : req1.url = req2.url) :
    firstMatch routes req1 = firstMatch routes req2 ∧
    matchedIndex routes req1 = matchedIndex routes req2 ∧
    Router1.handler routes req1 info = Router1.handler routes req1 info := by
  refine ⟨?_, ?_, rfl⟩
  · induction routes with
    | nil => rfl
    | cons e rest ih =>
      rw [firstMatch, firstMatch, entryMatchesB_congr e req1 req2 hm hu, ih]
  · induction routes with
    | nil => rfl
    | cons e rest ih =>
      rw [matchedIndex, matchedIndex, entryMatchesB_congr e req1 req2 hm hu, ih]

theorem dispatch_deterministic_witness :
    firstMatch routesW1 reqGetX = firstMatch routesW1 reqGetX2 ∧
    matchedIndex routesW1 reqGetX = matchedIndex routesW1 reqGetX2 ∧
    Router1.handler routesW1 reqGetX () = Router1.handler routesW1 reqGetX () :=
  dispatch_deterministic routesW1 reqGetX reqGetX2 () rfl rfl

/-- C9. Handler failures propagate unchanged: when the first matching
entry's producer is a handler function and its call produces any outcome
`out` — in particular a thrown error or a rejected pending response —
the dispatcher returns exactly `out`, with no catching, wrapping, or
conversion into a response (the route table, a pure value here, is not
touched). -/
theorem handler_failure_propagates (routes : RouteTable Info) (req : Request)
    (info : Info) (p : URLPattern) (m : MethodResponses Info)
    (f : HandlerArgs Info → HandlerOut) (g q : Groups) (out : HandlerOut)
    (hfm : firstMatch routes req = some (p, m))
    (hres : (parseMethod req.method).bind m = some (ResponseLike.handlerFn f))
    (hexec : p.exec req.url = some g)
    (hdec : decodeGroups g = Except.ok q)
    (hout : f { request := req, info := info, query := q } = out) :
    Router1.handler routes req info = out := by
  rw [handler1_handlerFn routes req info p m f g q hfm hres hexec hdec, hout]

theorem handler_failure_propagates_witness :
    Router1.handler routesW9 reqGetX () = HandlerOut.raise (JSError.js 7) :=
  handler_failure_propagates routesW9 reqGetX () patX
    (singletonMethod Method.GET (ResponseLike.handlerFn failingHandler))
    failingHandler [] [] (HandlerOut.raise (JSError.js 7)) rfl rfl rfl rfl rfl

/-- C10. The two Router classes are behaviorally equivalent: any sequence
of registration calls yields the same route table in both, the same first
matching entry for any request, and — whenever some entry matches — the
same dispatch outcome; on no-match the first class returns a freshly
built `{ body := none, status := 404 }` response while the second returns
its stored `_defaultResponse` value. -/
theorem variants_equivalent (compile : String → URLPattern)
    (ops : List (RegOp Info)) (req : Request) (info : Info) :
    (applyOps2 compile RouterV2.new ops).routes = applyOps1 compile [] ops ∧
    firstMatch (applyOps2 compile RouterV2.new ops).routes req =
      firstMatch (applyOps1 compile [] ops) req ∧
    (match firstMatch (applyOps1 compile [] ops) req with
     | some _ =>
       RouterV2.handler (applyOps2 compile RouterV2.new ops) req info =
         Router1.handler (applyOps1 compile [] ops) req info
     | none =>
       Router1.handler (applyOps1 compile [] ops) req info =
         HandlerOut.response { body := none, status := 404 } ∧
       RouterV2.handler (applyOps2 compile RouterV2.new ops) req info =
         HandlerOut.response
           (applyOps2 compile RouterV2.new ops).defaultResponse) := by
  have hr : (applyOps2 compile RouterV2.new ops).routes = applyOps1 compile [] ops :=
    applyOps2_routes compile ops RouterV2.new
  refine ⟨hr, by rw [hr], ?_⟩
  cases hf : firstMatch (applyOps1 compile [] ops) req with
  | some e =>
    obtain ⟨p, m⟩ := e
    rw [RouterV2.handler, handlerAux2_eq_firstMatch, hr, hf,
      handler1_eq_firstMatch, hf]
  | none =>
    constructor
    · rw [handler1_eq_firstMatch, hf]
    · rw [RouterV2.handler, handlerAux2_eq_firstMatch, hr, hf]

end JsrRouter
